import Mathlib

/-!
Verification development for the filesystem-mediated IPC bus of the nanoclaw
repository (`src/ipc.ts`).

Modelling conventions of this shallow embedding:

* Canonical absolute filesystem paths are modelled as lists of path segments
  (`List String`); a canonical path has nonempty, slash-free segments.
* JS strings are Lean `String`s; the JS prefix test `s.startsWith(p)` is
  modelled at the character-list level (`strStartsWith`).
* Timestamps (`Date.now()`, `Date` values, ISO strings produced by
  `toISOString()`) are modelled as `Int` milliseconds since the epoch;
  `toISOString` is an injective encoding so equality of timestamps is
  equality of the stored values.
* External library calls (`cron-parser`, the `Date` constructor,
  `Math.random`) are oracle parameters collected in `Env`.
* The persistent store (task table plus in-memory registry of registered
  groups) is threaded explicitly as `Store`; calls to collaborators
  (`sendMessage`, `syncGroupMetadata`, `writeGroupsSnapshot`, log-and-deny
  branches) are recorded as `Effect`s in the order the source performs them.
* Fallible steps (JSON parsing, a thrown downstream call) appear as
  `Except` values.
-/

namespace Nanoclaw

/-- Models the JS string prefix test `s.startsWith(p)` (and, for `p = "/"`,
the posix `path.isAbsolute` of Node) at the character-list level. -/
def strStartsWith (s p : String) : Bool :=
  p.data.isPrefixOf s.data

/-- JS truthiness of an optional string field of a parsed JSON envelope:
`undefined` (here `none`) and the empty string are falsy, every other
string is truthy.  Used for the `data.field &&`-style presence checks in
`ipc.ts`. -/
def truthy : Option String → Bool
  | none => false
  | some s => s != ""

/-- Digit-prefix part of JS `parseInt(s, 10)`: longest prefix of decimal
digits, `NaN` (`none`) when there is none. -/
def jsParseIntDigits (sign : Int) (cs : List Char) : Option Int :=
  let ds := cs.takeWhile (fun c => c.isDigit)
  if ds.isEmpty then none
  else some (sign * ds.foldl (fun a c => a * 10 + ((c.toNat : Int) - ('0'.toNat : Int))) 0)

/-- Models JS `parseInt(s, 10)` as used at `ipc.ts:342`: skip leading
whitespace, optional sign, then the longest prefix of decimal digits
(trailing garbage ignored); `NaN` is `none`. -/
def jsParseInt (s : String) : Option Int :=
  match s.data.dropWhile (fun c => c == ' ' || c == '\t' || c == '\n' || c == '\r') with
  | '-' :: rest => jsParseIntDigits (-1) rest
  | '+' :: rest => jsParseIntDigits 1 rest
  | rest => jsParseIntDigits 1 rest

/-- Segment-level model of Node posix `path.relative(base, cand)` for two
canonical absolute paths given by their segment lists: drop the longest
common prefix, emit one `".."` segment per remaining base segment, then the
remaining candidate segments.  The empty result corresponds to the empty
relative string. -/
def relSegments : List String → List String → List String
  | [], cs => cs
  | b :: bs, [] => (b :: bs).map (fun _ => "..")
  | b :: bs, c :: cs =>
    if b = c then relSegments bs cs
    else (b :: bs).map (fun _ => "..") ++ (c :: cs)

/-- Whether the string formed by joining the relative segments with `"/"`
starts with the prefix `p`.  For canonical (nonempty, slash-free) segments
this is exactly a prefix test on the first segment; the empty relative path
starts with nothing. -/
def relHeadStartsWith : List String → String → Bool
  | [], _ => false
  | s :: _, p => strStartsWith s p

/-- Embeds `isWithinBoundary` (`ipc.ts:34-37`):
the check accepts when rel is empty, or rel neither starts with dot-dot nor
is absolute, where rel = path.relative(basePath, candidatePath). -/
def isWithinBoundary (basePath candidatePath : List String) : Bool :=
  let rel := relSegments basePath candidatePath
  rel.isEmpty || (!(relHeadStartsWith rel "..") && !(relHeadStartsWith rel "/"))

/-- Spec-side notion for the boundary claim: a path P is a proper descendant
of a base B iff the segment list of B is a proper prefix of that of P. -/
def isProperDescendant (base cand : List String) : Bool :=
  base.isPrefixOf cand && cand != base

/-- A canonical path segment: nonempty and it does not start with a slash
(canonical segments contain no slash at all; only the leading position
matters to the boundary check). -/
def canonicalSeg (s : String) : Bool :=
  s != "" && !(strStartsWith s "/")

/-- A registered tenant record (`types.ts` shape as used by `ipc.ts`);
`containerConfig` is an opaque passthrough modelled as an optional string. -/
structure RegisteredGroup where
  name : String
  folder : String
  trigger : String
  added_at : Int
  requiresTrigger : Option Bool := none
  containerConfig : Option String := none
  deriving Repr, DecidableEq

/-- A scheduled task row as created by `processTaskIpc`. -/
structure Task where
  id : String
  group_folder : String
  chat_jid : String
  prompt : String
  schedule_type : String
  schedule_value : String
  context_mode : String
  next_run : Option Int
  status : String
  created_at : Int
  deriving Repr, DecidableEq

/-- A parsed task-command envelope: the loosely-typed `data` argument of
`processTaskIpc` (`ipc.ts:270-287`); absent JSON fields are `none`. -/
structure TaskData where
  type : String
  taskId : Option String := none
  prompt : Option String := none
  schedule_type : Option String := none
  schedule_value : Option String := none
  context_mode : Option String := none
  groupFolder : Option String := none
  chatJid : Option String := none
  targetJid : Option String := none
  jid : Option String := none
  name : Option String := none
  folder : Option String := none
  trigger : Option String := none
  requiresTrigger : Option Bool := none
  containerConfig : Option String := none
  deriving Repr, DecidableEq

/-- A parsed message envelope as inspected at `ipc.ts:145`. -/
structure MessageData where
  type : String
  chatJid : Option String := none
  text : Option String := none
  deriving Repr, DecidableEq

/-- Oracles for the ambient runtime: the current time, the next-fire-time
computation of the cron library (`none` models a parse exception), the `Date`
string constructor (`none` models `NaN`), and the random task-id suffix. -/
structure Env where
  now : Int
  parseCronNext : String → Option Int
  parseDate : String → Option Int
  randSuffix : String

/-- The mutable state visible to `processTaskIpc`: the task table (db) and
the registry of registered groups keyed by jid. -/
structure Store where
  tasks : List Task
  groups : String → Option RegisteredGroup

/-- Observable effects of processing one envelope, in source order. -/
inductive Effect where
  | createdTask (t : Task)
  | updatedTask (id status : String)
  | deletedTask (id : String)
  | registeredGroup (jid : String) (g : RegisteredGroup)
  | syncedGroupMetadata (force : Bool)
  | wroteGroupsSnapshot (folder : String) (isMain : Bool)
  | sent (jid text : String)
  | denied (reason : String)
  deriving Repr, DecidableEq

/-- Modelled from the spec: `getTaskById` of `db.ts` (imported by `ipc.ts`
but not under `src/`) — looks a task up by its id. -/
def getTaskById (tasks : List Task) (id : String) : Option Task :=
  tasks.find? (fun t => t.id == id)

/-- Modelled from the spec: `updateTask(id, { status })` of `db.ts` (not
under `src/`) — "sets status paused" / "sets status active" on the
identified task. -/
def updateTaskStatus (tasks : List Task) (id status : String) : List Task :=
  tasks.map (fun t => if t.id == id then { t with status := status } else t)

/-- Modelled from the spec: `deleteTask` of `db.ts` (not under `src/`) —
"deletes the Task". -/
def deleteTaskById (tasks : List Task) (id : String) : List Task :=
  tasks.filter (fun t => !(t.id == id))

/-- Modelled from the spec: `createTask` of `db.ts` (not under `src/`) —
inserts the new task row. -/
def createTask (tasks : List Task) (t : Task) : List Task :=
  tasks ++ [t]

/-- Modelled from the spec: `isValidGroupFolder` of `group-folder.ts`
(imported by `ipc.ts` but not under `src/`) — the namespace-safety
validator checks the folder name against an allow-list pattern
(alphanumeric, hyphen, underscore; nonempty), so traversal names such as
`"../escape"` fail it. -/
def isValidGroupFolder (folder : String) : Bool :=
  !(folder.data.isEmpty) && folder.data.all (fun c => c.isAlphanum || c == '-' || c == '_')

/-- Embeds `processTaskIpc` (`ipc.ts:269-501`): dispatch on the envelope
`type` field, authorize against the directory-derived `sourceGroup` / `isMain`,
and perform the per-command effects.  Semantic rejections (authorization
failures, invalid schedule values, missing fields, unknown types) return
normally — a `logger.warn` branch is recorded as a `denied` effect. -/
def processTaskIpc (data : TaskData) (sourceGroup : String) (isMain : Bool)
    (env : Env) (store : Store) : Store × List Effect :=
  let registeredGroups := store.groups
  if data.type = "schedule_task" then
    if truthy data.prompt && truthy data.schedule_type &&
        truthy data.schedule_value && truthy data.targetJid then
      let targetJid := data.targetJid.getD ""
      match registeredGroups targetJid with
      | none => (store, [.denied "Cannot schedule task: target group not registered"])
      | some targetGroupEntry =>
        let targetFolder := targetGroupEntry.folder
        if !isMain && targetFolder != sourceGroup then
          (store, [.denied "Unauthorized schedule_task attempt blocked"])
        else
          let scheduleType := data.schedule_type.getD ""
          let scheduleValue := data.schedule_value.getD ""
          let nextRunResult : Except String (Option Int) :=
            if scheduleType = "cron" then
              match env.parseCronNext scheduleValue with
              | some t => .ok (some t)
              | none => .error "Invalid cron expression"
            else if scheduleType = "interval" then
              match jsParseInt scheduleValue with
              | none => .error "Invalid interval"
              | some ms => if ms ≤ 0 then .error "Invalid interval" else .ok (some (env.now + ms))
            else if scheduleType = "once" then
              match env.parseDate scheduleValue with
              | none => .error "Invalid timestamp"
              | some t => .ok (some t)
            else .ok none
          match nextRunResult with
          | .error msg => (store, [.denied msg])
          | .ok nextRun =>
            let taskId := "task-" ++ toString env.now ++ "-" ++ env.randSuffix
            let contextMode :=
              if data.context_mode == some "group" || data.context_mode == some "isolated" then
                data.context_mode.getD "isolated"
              else "isolated"
            let t : Task :=
              { id := taskId, group_folder := targetFolder, chat_jid := targetJid,
                prompt := data.prompt.getD "", schedule_type := scheduleType,
                schedule_value := scheduleValue, context_mode := contextMode,
                next_run := nextRun, status := "active", created_at := env.now }
            ({ store with tasks := createTask store.tasks t }, [.createdTask t])
    else (store, [])
  else if data.type = "pause_task" then
    if truthy data.taskId then
      let taskId := data.taskId.getD ""
      match getTaskById store.tasks taskId with
      | some task =>
        if isMain || task.group_folder == sourceGroup then
          ({ store with tasks := updateTaskStatus store.tasks taskId "paused" },
            [.updatedTask taskId "paused"])
        else (store, [.denied "Unauthorized task pause attempt"])
      | none => (store, [.denied "Unauthorized task pause attempt"])
    else (store, [])
  else if data.type = "resume_task" then
    if truthy data.taskId then
      let taskId := data.taskId.getD ""
      match getTaskById store.tasks taskId with
      | some task =>
        if isMain || task.group_folder == sourceGroup then
          ({ store with tasks := updateTaskStatus store.tasks taskId "active" },
            [.updatedTask taskId "active"])
        else (store, [.denied "Unauthorized task resume attempt"])
      | none => (store, [.denied "Unauthorized task resume attempt"])
    else (store, [])
  else if data.type = "cancel_task" then
    if truthy data.taskId then
      let taskId := data.taskId.getD ""
      match getTaskById store.tasks taskId with
      | some task =>
        if isMain || task.group_folder == sourceGroup then
          ({ store with tasks := deleteTaskById store.tasks taskId },
            [.deletedTask taskId])
        else (store, [.denied "Unauthorized task cancel attempt"])
      | none => (store, [.denied "Unauthorized task cancel attempt"])
    else (store, [])
  else if data.type = "refresh_groups" then
    if isMain then
      (store, [.syncedGroupMetadata true, .wroteGroupsSnapshot sourceGroup true])
    else (store, [.denied "Unauthorized refresh_groups attempt blocked"])
  else if data.type = "register_group" then
    if !isMain then
      (store, [.denied "Unauthorized register_group attempt blocked"])
    else if truthy data.jid && truthy data.name && truthy data.folder && truthy data.trigger then
      if !(isValidGroupFolder (data.folder.getD "")) then
        (store, [.denied "Invalid register_group request - unsafe folder name"])
      else
        let jid := data.jid.getD ""
        let g : RegisteredGroup :=
          { name := data.name.getD "", folder := data.folder.getD "",
            trigger := data.trigger.getD "", added_at := env.now,
            requiresTrigger := data.requiresTrigger,
            containerConfig := data.containerConfig }
        ({ store with groups := fun j => if j = jid then some g else store.groups j },
          [.registeredGroup jid g])
    else (store, [.denied "Invalid register_group request - missing required fields"])
  else (store, [.denied "Unknown IPC task type"])

/-- Embeds the message-envelope handling of `processGroupIpcFiles`
(`ipc.ts:144-160`): a parsed message envelope is forwarded via
`sendMessage` when the source is the main tenant or the registered owner
folder of the target jid equals the source tenant, and otherwise blocked. -/
def messageEffects (data : MessageData) (sourceGroup : String) (isMain : Bool)
    (registeredGroups : String → Option RegisteredGroup) : List Effect :=
  if data.type = "message" && truthy data.chatJid && truthy data.text then
    let chatJid := data.chatJid.getD ""
    let authorized :=
      isMain ||
        (match registeredGroups chatJid with
          | some targetGroup => targetGroup.folder == sourceGroup
          | none => false)
    if authorized then [.sent chatJid (data.text.getD "")]
    else [.denied "Unauthorized IPC message attempt blocked"]
  else []

/-- Result of the un-followed `lstat` of a directory entry. -/
structure FileStat where
  isFile : Bool
  isSymbolicLink : Bool
  deriving Repr, DecidableEq

/-- What happens to the envelope file itself. -/
inductive FileAction where
  | skip
  | delete (p : List String)
  | quarantine (dest : List String)
  | moveRejected
  | moveFailed
  deriving Repr, DecidableEq

/-- Embeds `safeMoveToErrorDir` (`ipc.ts:39-62`): re-canonicalize the file
(`none` models a thrown `realpathSync`), reject the move when the canonical
path escapes the canonical source directory, otherwise rename into the
error directory under `sourceGroup ++ "-" ++ file`. -/
def safeMoveToErrorDir (realpathResult : Option (List String)) (sourceGroup file : String)
    (canonicalSourceDir canonicalErrorDir : List String) : FileAction :=
  match realpathResult with
  | none => .moveFailed
  | some canonicalFilePath =>
    if !(isWithinBoundary canonicalSourceDir canonicalFilePath) then .moveRejected
    else .quarantine (canonicalErrorDir ++ [sourceGroup ++ "-" ++ file])

/-- Embeds the per-file loop body of `processGroupIpcFiles`, identical for
the `messages` (`ipc.ts:125-174`) and `tasks` (`ipc.ts:190-225`)
subdirectories: skip entries that are not regular files per the un-followed
lstat, skip canonical paths outside the subdirectory boundary, then run the
read/parse/dispatch step (`processResult`; `ok` carries its effects, and
semantic denials are `ok`); delete the file on normal completion, or hand
it to `safeMoveToErrorDir` when the step threw.  In this sequential model
the file is unchanged between the boundary check and the quarantine move,
so the catch branch re-resolves to the same canonical path. -/
def processIpcFileStep (sourceGroup file : String) (stat : FileStat)
    (canonicalFilePath canonicalSubDir canonicalErrorDir : List String)
    (processResult : Except String (List Effect)) : FileAction × List Effect :=
  if !stat.isFile || stat.isSymbolicLink then (.skip, [])
  else if !(isWithinBoundary canonicalSubDir canonicalFilePath) then (.skip, [])
  else
    match processResult with
    | .ok effects => (.delete canonicalFilePath, effects)
    | .error _ =>
      (safeMoveToErrorDir (some canonicalFilePath) sourceGroup file
        canonicalSubDir canonicalErrorDir, [])


/-- The `RegisteredGroup` record built by the `register_group` handler
(`ipc.ts:482-489`) from the envelope fields and the current time. -/
def registeredGroupOf (data : TaskData) (env : Env) : RegisteredGroup :=
  { name := data.name.getD "", folder := data.folder.getD "",
    trigger := data.trigger.getD "", added_at := env.now,
    requiresTrigger := data.requiresTrigger,
    containerConfig := data.containerConfig }

/-- Concrete environment used by the witnesses: the clock reads 1000 ms,
the cron oracle always fails, the date oracle parses every string to the
past instant -5, and the random suffix is fixed. -/
def sampleEnv : Env :=
  { now := 1000, parseCronNext := fun _ => none,
    parseDate := fun _ => some (-5), randSuffix := "abc123" }

/-- Concrete registered tenant used by the witnesses. -/
def sampleGroup : RegisteredGroup :=
  { name := "Family", folder := "family", trigger := "@bot", added_at := 0 }

/-- Concrete task used by the witnesses, owned by tenant `family`. -/
def sampleTask : Task :=
  { id := "t1", group_folder := "family", chat_jid := "jid1", prompt := "p",
    schedule_type := "interval", schedule_value := "5000",
    context_mode := "isolated", next_run := none, status := "active",
    created_at := 0 }

/-- Concrete store used by the witnesses: one task, one registered jid. -/
def sampleStore : Store :=
  { tasks := [sampleTask],
    groups := fun j => if j = "jid1" then some sampleGroup else none }

end Nanoclaw

namespace Nanoclaw

/-! ## Helper lemmas about the boundary resolver -/

theorem relSegments_append (base r : List String) : relSegments base (base ++ r) = r := by
  induction base with
  | nil => simp [relSegments]
  | cons b bs ih => simp [relSegments, ih]

theorem relSegments_self (base : List String) : relSegments base base = [] := by
  simpa using relSegments_append base []

theorem relSegments_eq_nil_iff (base cand : List String) :
    relSegments base cand = [] ↔ base = cand := by
  induction base generalizing cand with
  | nil => cases cand <;> simp [relSegments]
  | cons b bs ih =>
    cases cand with
    | nil => simp [relSegments]
    | cons c cs =>
      by_cases h : b = c
      · subst h
        simp [relSegments, ih]
      · simp [relSegments, h]

theorem relSegments_head_dotdot (base cand : List String)
    (h : base.isPrefixOf cand = false) :
    relHeadStartsWith (relSegments base cand) ".." = true := by
  induction base generalizing cand with
  | nil => simp [List.isPrefixOf] at h
  | cons b bs ih =>
    cases cand with
    | nil =>
      simp [relSegments, relHeadStartsWith]
      decide
    | cons c cs =>
      by_cases hbc : b = c
      · subst hbc
        simp [List.isPrefixOf] at h
        simp [relSegments, ih cs h]
      · simp [relSegments, hbc, relHeadStartsWith]
        decide

/-! ## Claim theorems -/

/-- C1: the effects of `processTaskIpc` depend only on the directory-derived
`sourceGroup` and `isMain`, never on identity claims inside the envelope:
two task-command envelopes that differ only in the identity fields
`groupFolder` and `chatJid` of the content, processed with the same
`sourceGroup` and `isMain`, produce the identical store and the identical
effect list (same store mutations, same registrations, same denials). -/
theorem c1_processTaskIpc_ignores_envelope_identity (data : TaskData)
    (g c : Option String) (sourceGroup : String) (isMain : Bool)
    (env : Env) (store : Store) :
    processTaskIpc { data with groupFolder := g, chatJid := c } sourceGroup isMain env store =
      processTaskIpc data sourceGroup isMain env store := rfl

/-- C2, counterexample to the claim as stated: with the canonical base
`/a` and the canonical candidate `/a/..b` — a proper descendant of the
base, whose entry name merely begins with two dots — `isWithinBoundary`
returns `false`, so it is not true for all canonical B and P that
`isWithinBoundary(B, P)` holds iff P equals B or is a proper descendant
of B. -/
theorem c2_claim_counterexample :
    (["a"] : List String).all canonicalSeg = true ∧
    (["a", "..b"] : List String).all canonicalSeg = true ∧
    isProperDescendant ["a"] ["a", "..b"] = true ∧
    isWithinBoundary ["a"] ["a", "..b"] = false := by decide

/-- C2 (amended): for canonical base B and candidate P,
`isWithinBoundary(B, P)` returns `true` iff P equals B, or P is a proper
descendant of B whose first path segment below B does not begin with the
two-character sequence dot-dot. -/
theorem c2_isWithinBoundary_amended (base cand : List String)
    (hc : cand.all canonicalSeg = true) :
    isWithinBoundary base cand = true ↔
      (cand = base ∨ (base.isPrefixOf cand = true ∧ cand ≠ base ∧
        strStartsWith ((cand.drop base.length).headD "") ".." = false)) := by
  by_cases hp : base.isPrefixOf cand = true
  · obtain ⟨r, hr⟩ := List.isPrefixOf_iff_prefix.mp hp
    subst hr
    cases r with
    | nil => simp [isWithinBoundary, relSegments_self]
    | cons s rs =>
      have hs : canonicalSeg s = true :=
        List.all_eq_true.mp hc s (List.mem_append.mpr (Or.inr (List.mem_cons_self s rs)))
      have hslash : strStartsWith s "/" = false := by
        have := (Bool.and_eq_true _ _).mp hs
        simpa using this.2
      simp [isWithinBoundary, relSegments_append, relHeadStartsWith, hslash, hp,
        List.drop_left]
  · have hp' : base.isPrefixOf cand = false := by
      cases h : base.isPrefixOf cand
      · rfl
      · exact absurd h hp
    have hne : cand ≠ base := by
      intro h
      subst h
      exact hp (List.isPrefixOf_iff_prefix.mpr (List.prefix_refl _))
    rcases hrel : relSegments base cand with _ | ⟨x, xs⟩
    · exact absurd ((relSegments_eq_nil_iff base cand).mp hrel)
        (fun h => hne h.symm)
    · have hdd := relSegments_head_dotdot base cand hp'
      rw [hrel] at hdd
      simp [isWithinBoundary, hrel, hdd, hne, hp']

/-- Witness for C2 (amended) at base `/a`, candidate `/a/b`. -/
theorem c2_isWithinBoundary_amended_witness :
    isWithinBoundary ["a"] ["a", "b"] = true :=
  (c2_isWithinBoundary_amended ["a"] ["a", "b"] (by decide)).mpr
    (Or.inr ⟨by decide, by decide, by decide⟩)

/-- C3: for a message envelope with target channel identity `j` found in
the namespace of tenant `sourceGroup`: the main tenant is always forwarded
via `sendMessage`; a non-main tenant is forwarded exactly when `j` is
registered with an owner whose folder equals the source tenant, and in
every other case the envelope is denied and no send effect occurs. -/
theorem c3_message_forwarding_authorization (data : MessageData)
    (sourceGroup : String) (isMain : Bool)
    (rg : String → Option RegisteredGroup) (j txt : String)
    (hty : data.type = "message") (hj : data.chatJid = some j) (hjne : j ≠ "")
    (ht : data.text = some txt) (htne : txt ≠ "") :
    (isMain = true → messageEffects data sourceGroup isMain rg = [.sent j txt]) ∧
    (isMain = false →
      ((∃ g, rg j = some g ∧ g.folder = sourceGroup) →
        messageEffects data sourceGroup isMain rg = [.sent j txt]) ∧
      ((∀ g, rg j = some g → g.folder ≠ sourceGroup) →
        messageEffects data sourceGroup isMain rg =
          [.denied "Unauthorized IPC message attempt blocked"])) := by
  refine ⟨fun hm => ?_, fun hm => ⟨fun hreg => ?_, fun hden => ?_⟩⟩
  · simp [messageEffects, truthy, hty, hj, hjne, ht, htne, hm]
  · obtain ⟨g, hg, hf⟩ := hreg
    simp [messageEffects, truthy, hty, hj, hjne, ht, htne, hm, hg, hf]
  · cases hg : rg j with
    | none => simp [messageEffects, truthy, hty, hj, hjne, ht, htne, hm, hg]
    | some g =>
      have := hden g hg
      simp [messageEffects, truthy, hty, hj, hjne, ht, htne, hm, hg, this]

/-- Witness for C3: tenant `family` sends to its own registered jid. -/
theorem c3_message_forwarding_authorization_witness :
    messageEffects { type := "message", chatJid := some "jid1", text := some "hi" }
      "family" false sampleStore.groups = [.sent "jid1" "hi"] :=
  ((c3_message_forwarding_authorization
      { type := "message", chatJid := some "jid1", text := some "hi" }
      "family" false sampleStore.groups "jid1" "hi" rfl rfl (by decide) rfl
      (by decide)).2 rfl).1 ⟨sampleGroup, rfl, rfl⟩

/-- C4: for a `pause_task`, `resume_task` or `cancel_task` command from a
non-main source tenant referencing an existing task it does not own, the
command is denied and the store is unchanged; when the source is main or
the owner, pause sets the status to `paused`, resume sets it to `active`,
and cancel deletes the task. -/
theorem c4_task_mutation_authorization (data : TaskData) (sourceGroup : String)
    (isMain : Bool) (env : Env) (store : Store) (t : Task)
    (htid : data.taskId = some t.id) (hne : t.id ≠ "")
    (hfind : getTaskById store.tasks t.id = some t) :
    ((data.type = "pause_task" ∨ data.type = "resume_task" ∨ data.type = "cancel_task") →
      isMain = false → t.group_folder ≠ sourceGroup →
      (processTaskIpc data sourceGroup isMain env store).1 = store ∧
      (∃ msg, (processTaskIpc data sourceGroup isMain env store).2 = [.denied msg])) ∧
    (data.type = "pause_task" → (isMain = true ∨ t.group_folder = sourceGroup) →
      processTaskIpc data sourceGroup isMain env store =
        ({ store with tasks := updateTaskStatus store.tasks t.id "paused" },
          [.updatedTask t.id "paused"])) ∧
    (data.type = "resume_task" → (isMain = true ∨ t.group_folder = sourceGroup) →
      processTaskIpc data sourceGroup isMain env store =
        ({ store with tasks := updateTaskStatus store.tasks t.id "active" },
          [.updatedTask t.id "active"])) ∧
    (data.type = "cancel_task" → (isMain = true ∨ t.group_folder = sourceGroup) →
      processTaskIpc data sourceGroup isMain env store =
        ({ store with tasks := deleteTaskById store.tasks t.id },
          [.deletedTask t.id])) := by
  refine ⟨fun hty hm hgf => ?_, fun hty hauth => ?_, fun hty hauth => ?_,
    fun hty hauth => ?_⟩
  · have hgf' : (t.group_folder == sourceGroup) = false := by
      simp [hgf]
    rcases hty with hty | hty | hty <;>
      simp [processTaskIpc, hty, htid, truthy, hne, hfind, hm, hgf']
  · rcases hauth with hm | hgf
    · simp [processTaskIpc, hty, htid, truthy, hne, hfind, hm]
    · simp [processTaskIpc, hty, htid, truthy, hne, hfind, hgf]
  · rcases hauth with hm | hgf
    · simp [processTaskIpc, hty, htid, truthy, hne, hfind, hm]
    · simp [processTaskIpc, hty, htid, truthy, hne, hfind, hgf]
  · rcases hauth with hm | hgf
    · simp [processTaskIpc, hty, htid, truthy, hne, hfind, hm]
    · simp [processTaskIpc, hty, htid, truthy, hne, hfind, hgf]

/-- Witness for C4: tenant `other` tries to pause the task of `family`;
the store is unchanged and a denial is logged. -/
theorem c4_task_mutation_authorization_witness :
    (processTaskIpc { type := "pause_task", taskId := some "t1" } "other" false
      sampleEnv sampleStore).1 = sampleStore ∧
    ∃ msg, (processTaskIpc { type := "pause_task", taskId := some "t1" } "other" false
      sampleEnv sampleStore).2 = [.denied msg] :=
  (c4_task_mutation_authorization { type := "pause_task", taskId := some "t1" }
      "other" false sampleEnv sampleStore sampleTask rfl (by decide) rfl).1
    (Or.inl rfl) rfl (by decide)

/-- C5: an observed envelope file that passes the regular-file and boundary
checks is consumed exactly once: when the read/parse/dispatch step ends
without a thrown exception (denials included, which are `ok` results), the
file is deleted; when the step throws, the file is instead moved to the
quarantine directory under the name `sourceGroup ++ "-" ++ file`. -/
theorem c5_file_consumed_exactly_once (sourceGroup file : String) (stat : FileStat)
    (canonicalFilePath canonicalSubDir canonicalErrorDir : List String)
    (hregular : stat.isFile = true) (hsym : stat.isSymbolicLink = false)
    (hbound : isWithinBoundary canonicalSubDir canonicalFilePath = true) :
    (∀ effects, processIpcFileStep sourceGroup file stat canonicalFilePath canonicalSubDir
        canonicalErrorDir (.ok effects) = (.delete canonicalFilePath, effects)) ∧
    (∀ e, processIpcFileStep sourceGroup file stat canonicalFilePath canonicalSubDir
        canonicalErrorDir (.error e) =
      (.quarantine (canonicalErrorDir ++ [sourceGroup ++ "-" ++ file]), [])) := by
  constructor <;> intro x <;>
    simp [processIpcFileStep, safeMoveToErrorDir, hregular, hsym, hbound]

/-- Witness for C5: a task file of `family` whose processing throws is
quarantined as `family-f.json`. -/
theorem c5_file_consumed_exactly_once_witness :
    processIpcFileStep "family" "f.json" { isFile := true, isSymbolicLink := false }
      ["ipc", "family", "tasks", "f.json"] ["ipc", "family", "tasks"] ["ipc", "errors"]
      (.error "parse error") =
      (.quarantine (["ipc", "errors"] ++ ["family" ++ "-" ++ "f.json"]), []) :=
  (c5_file_consumed_exactly_once "family" "f.json"
      { isFile := true, isSymbolicLink := false }
      ["ipc", "family", "tasks", "f.json"] ["ipc", "family", "tasks"] ["ipc", "errors"]
      rfl rfl (by decide)).2 "parse error"

/-- C6: a directory entry whose un-followed lstat shows a symbolic link or
a non-regular file is skipped — it is never read, parsed, forwarded or
dispatched (the outcome is `skip` with no effects for every possible
processing result), even when its canonical path lies within the
boundary. -/
theorem c6_symlink_entries_skipped (sourceGroup file : String) (stat : FileStat)
    (canonicalFilePath canonicalSubDir canonicalErrorDir : List String)
    (h : stat.isFile = false ∨ stat.isSymbolicLink = true) :
    ∀ processResult, processIpcFileStep sourceGroup file stat canonicalFilePath
      canonicalSubDir canonicalErrorDir processResult = (.skip, []) := by
  intro pr
  rcases h with h | h <;> simp [processIpcFileStep, h]

/-- Witness for C6: a symlinked entry whose target is inside the boundary
is still skipped. -/
theorem c6_symlink_entries_skipped_witness :
    processIpcFileStep "family" "f.json" { isFile := false, isSymbolicLink := true }
      ["ipc", "family", "tasks", "f.json"] ["ipc", "family", "tasks"] ["ipc", "errors"]
      (.ok [.sent "jid1" "hi"]) = (.skip, []) :=
  c6_symlink_entries_skipped "family" "f.json"
    { isFile := false, isSymbolicLink := true }
    ["ipc", "family", "tasks", "f.json"] ["ipc", "family", "tasks"] ["ipc", "errors"]
    (Or.inl rfl) (.ok [.sent "jid1" "hi"])

/-- C7: a `register_group` command from a non-main tenant, or with a
missing required field, or with a folder failing the namespace-safety
validator, leaves the registry untouched and is denied; from main with all
four fields present and a valid folder, the registration is performed for
that jid. -/
theorem c7_register_group_validation (data : TaskData) (sourceGroup : String)
    (isMain : Bool) (env : Env) (store : Store)
    (hty : data.type = "register_group") :
    (isMain = false →
      processTaskIpc data sourceGroup isMain env store =
        (store, [.denied "Unauthorized register_group attempt blocked"])) ∧
    (isMain = true →
      ((truthy data.jid && truthy data.name && truthy data.folder && truthy data.trigger)
          = false →
        processTaskIpc data sourceGroup isMain env store =
          (store, [.denied "Invalid register_group request - missing required fields"])) ∧
      ((truthy data.jid && truthy data.name && truthy data.folder && truthy data.trigger)
          = true →
        (isValidGroupFolder (data.folder.getD "") = false →
          processTaskIpc data sourceGroup isMain env store =
            (store, [.denied "Invalid register_group request - unsafe folder name"])) ∧
        (isValidGroupFolder (data.folder.getD "") = true →
          processTaskIpc data sourceGroup isMain env store =
            ({ store with groups := fun j =>
                if j = data.jid.getD "" then some (registeredGroupOf data env)
                else store.groups j },
              [.registeredGroup (data.jid.getD "") (registeredGroupOf data env)])))) := by
  refine ⟨fun hm => ?_, fun hm => ⟨fun hf => ?_, fun hf => ⟨fun hv => ?_, fun hv => ?_⟩⟩⟩
  · simp [processTaskIpc, hty, hm]
  · simp [processTaskIpc, hty, hm, hf]
  · simp [processTaskIpc, hty, hm, hf, hv]
  · simp [processTaskIpc, registeredGroupOf, hty, hm, hf, hv]

/-- Witness for C7: main registers folder `"../escape"` with all other
fields valid; the registry is unchanged and the request denied. -/
theorem c7_register_group_validation_witness :
    processTaskIpc
      { type := "register_group", jid := some "jid2", name := some "Evil",
        folder := some "../escape", trigger := some "@bot" }
      "main" true sampleEnv sampleStore =
      (sampleStore, [.denied "Invalid register_group request - unsafe folder name"]) :=
  (((c7_register_group_validation
        { type := "register_group", jid := some "jid2", name := some "Evil",
          folder := some "../escape", trigger := some "@bot" }
        "main" true sampleEnv sampleStore rfl).2 rfl).2 (by decide)).1 (by decide)

/-- C8: an authorized `schedule_task` with `schedule_type = "interval"`
creates a task with `next_run = now + ms` when the value parses (JS
`parseInt`) to a positive count of milliseconds, and is rejected with no
task created when the value is non-numeric or non-positive. -/
theorem c8_interval_schedule (data : TaskData) (sourceGroup : String) (isMain : Bool)
    (env : Env) (store : Store) (tg : RegisteredGroup) (j sv p : String)
    (hty : data.type = "schedule_task")
    (hp : data.prompt = some p) (hpne : p ≠ "")
    (hst : data.schedule_type = some "interval")
    (hsv : data.schedule_value = some sv) (hsvne : sv ≠ "")
    (hj : data.targetJid = some j) (hjne : j ≠ "")
    (hregd : store.groups j = some tg)
    (hauth : isMain = true ∨ tg.folder = sourceGroup) :
    (∀ ms, jsParseInt sv = some ms → 0 < ms →
      ∃ t : Task,
        processTaskIpc data sourceGroup isMain env store =
          ({ store with tasks := createTask store.tasks t }, [.createdTask t]) ∧
        t.next_run = some (env.now + ms) ∧ t.schedule_type = "interval" ∧
        t.status = "active") ∧
    ((jsParseInt sv = none ∨ ∃ ms, jsParseInt sv = some ms ∧ ms ≤ 0) →
      processTaskIpc data sourceGroup isMain env store =
        (store, [.denied "Invalid interval"])) := by
  constructor
  · intro ms hms hpos
    have hle : ¬ ms ≤ 0 := by omega
    refine ⟨{ id := "task-" ++ toString env.now ++ "-" ++ env.randSuffix,
              group_folder := tg.folder, chat_jid := j,
              prompt := p,
              schedule_type := "interval", schedule_value := sv,
              context_mode :=
                if data.context_mode == some "group" || data.context_mode == some "isolated" then
                  data.context_mode.getD "isolated"
                else "isolated",
              next_run := some (env.now + ms), status := "active",
              created_at := env.now }, ?_, rfl, rfl, rfl⟩
    rcases hauth with hm | hf
    · simp [processTaskIpc, truthy, hty, hp, hpne, hst, hsv, hsvne, hj, hjne, hregd, hm,
        hms, hle]
    · simp [processTaskIpc, truthy, hty, hp, hpne, hst, hsv, hsvne, hj, hjne, hregd, hf,
        hms, hle]
  · intro h
    rcases hauth with hm | hf
    · rcases h with h | ⟨ms, hms, hle0⟩
      · simp [processTaskIpc, truthy, hty, hp, hpne, hst, hsv, hsvne, hj, hjne, hregd,
          hm, h]
      · simp [processTaskIpc, truthy, hty, hp, hpne, hst, hsv, hsvne, hj, hjne, hregd,
          hm, hms, hle0]
    · rcases h with h | ⟨ms, hms, hle0⟩
      · simp [processTaskIpc, truthy, hty, hp, hpne, hst, hsv, hsvne, hj, hjne, hregd,
          hf, h]
      · simp [processTaskIpc, truthy, hty, hp, hpne, hst, hsv, hsvne, hj, hjne, hregd,
          hf, hms, hle0]

/-- Witness for C8: `schedule_value = "5000"` yields a task with
`next_run = now + 5000`. -/
theorem c8_interval_schedule_witness :
    ∃ t : Task,
      processTaskIpc
        { type := "schedule_task", prompt := some "do it",
          schedule_type := some "interval", schedule_value := some "5000",
          targetJid := some "jid1" }
        "family" false sampleEnv sampleStore =
        ({ sampleStore with tasks := createTask sampleStore.tasks t }, [.createdTask t]) ∧
      t.next_run = some (sampleEnv.now + 5000) ∧ t.schedule_type = "interval" ∧
      t.status = "active" :=
  (c8_interval_schedule
      { type := "schedule_task", prompt := some "do it",
        schedule_type := some "interval", schedule_value := some "5000",
        targetJid := some "jid1" }
      "family" false sampleEnv sampleStore sampleGroup
      "jid1" "5000" "do it" rfl rfl (by decide) rfl rfl (by decide) rfl (by decide)
      rfl (Or.inr rfl)).1 5000 (by decide) (by decide)

/-- C9: an authorized `schedule_task` with `schedule_type = "once"` creates
a task whose `next_run` is exactly the parsed timestamp, with no validation
against the current time (a past timestamp is accepted as-is); an
unparseable date is rejected with no task created. -/
theorem c9_once_schedule (data : TaskData) (sourceGroup : String) (isMain : Bool)
    (env : Env) (store : Store) (tg : RegisteredGroup) (j sv p : String)
    (hty : data.type = "schedule_task")
    (hp : data.prompt = some p) (hpne : p ≠ "")
    (hst : data.schedule_type = some "once")
    (hsv : data.schedule_value = some sv) (hsvne : sv ≠ "")
    (hj : data.targetJid = some j) (hjne : j ≠ "")
    (hregd : store.groups j = some tg)
    (hauth : isMain = true ∨ tg.folder = sourceGroup) :
    (∀ ts : Int, env.parseDate sv = some ts →
      ∃ t : Task,
        processTaskIpc data sourceGroup isMain env store =
          ({ store with tasks := createTask store.tasks t }, [.createdTask t]) ∧
        t.next_run = some ts ∧ t.schedule_type = "once" ∧ t.status = "active") ∧
    (env.parseDate sv = none →
      processTaskIpc data sourceGroup isMain env store =
        (store, [.denied "Invalid timestamp"])) := by
  constructor
  · intro ts hts
    refine ⟨{ id := "task-" ++ toString env.now ++ "-" ++ env.randSuffix,
              group_folder := tg.folder, chat_jid := j,
              prompt := p,
              schedule_type := "once", schedule_value := sv,
              context_mode :=
                if data.context_mode == some "group" || data.context_mode == some "isolated" then
                  data.context_mode.getD "isolated"
                else "isolated",
              next_run := some ts, status := "active",
              created_at := env.now }, ?_, rfl, rfl, rfl⟩
    rcases hauth with hm | hf
    · simp [processTaskIpc, truthy, hty, hp, hpne, hst, hsv, hsvne, hj, hjne, hregd, hm,
        hts]
    · simp [processTaskIpc, truthy, hty, hp, hpne, hst, hsv, hsvne, hj, hjne, hregd, hf,
        hts]
  · intro hts
    rcases hauth with hm | hf
    · simp [processTaskIpc, truthy, hty, hp, hpne, hst, hsv, hsvne, hj, hjne, hregd, hm,
        hts]
    · simp [processTaskIpc, truthy, hty, hp, hpne, hst, hsv, hsvne, hj, hjne, hregd, hf,
        hts]

/-- Witness for C9: the date oracle of `sampleEnv` parses the value to the
instant -5, which lies before `now = 1000`, and the created task carries
exactly that past timestamp. -/
theorem c9_once_schedule_witness :
    ∃ t : Task,
      processTaskIpc
        { type := "schedule_task", prompt := some "do it",
          schedule_type := some "once", schedule_value := some "2099-01-01T00:00:00Z",
          targetJid := some "jid1" }
        "main" true sampleEnv sampleStore =
        ({ sampleStore with tasks := createTask sampleStore.tasks t }, [.createdTask t]) ∧
      t.next_run = some (-5) ∧ t.schedule_type = "once" ∧ t.status = "active" :=
  (c9_once_schedule
      { type := "schedule_task", prompt := some "do it",
        schedule_type := some "once", schedule_value := some "2099-01-01T00:00:00Z",
        targetJid := some "jid1" }
      "main" true sampleEnv sampleStore sampleGroup
      "jid1" "2099-01-01T00:00:00Z" "do it" rfl rfl (by decide) rfl rfl (by decide)
      rfl (by decide) rfl (Or.inl rfl)).1 (-5) rfl

/-- C10: an authorized `schedule_task` whose `schedule_type` is none of
`cron`, `interval` or `once` still creates a task, carrying the
unrecognized schedule type verbatim and `next_run = null`; the unknown
schedule kind is not rejected. -/
theorem c10_unknown_schedule_type_passthrough (data : TaskData) (sourceGroup : String)
    (isMain : Bool) (env : Env) (store : Store) (tg : RegisteredGroup)
    (j sv p st : String)
    (hty : data.type = "schedule_task")
    (hp : data.prompt = some p) (hpne : p ≠ "")
    (hst : data.schedule_type = some st) (hstne : st ≠ "")
    (hc : st ≠ "cron") (hi : st ≠ "interval") (ho : st ≠ "once")
    (hsv : data.schedule_value = some sv) (hsvne : sv ≠ "")
    (hj : data.targetJid = some j) (hjne : j ≠ "")
    (hregd : store.groups j = some tg)
    (hauth : isMain = true ∨ tg.folder = sourceGroup) :
    ∃ t : Task,
      processTaskIpc data sourceGroup isMain env store =
        ({ store with tasks := createTask store.tasks t }, [.createdTask t]) ∧
      t.schedule_type = st ∧ t.next_run = none ∧ t.status = "active" := by
  refine ⟨{ id := "task-" ++ toString env.now ++ "-" ++ env.randSuffix,
            group_folder := tg.folder, chat_jid := j,
            prompt := p,
            schedule_type := st, schedule_value := sv,
            context_mode :=
              if data.context_mode == some "group" || data.context_mode == some "isolated" then
                data.context_mode.getD "isolated"
              else "isolated",
            next_run := none, status := "active",
            created_at := env.now }, ?_, rfl, rfl, rfl⟩
  rcases hauth with hm | hf
  · simp [processTaskIpc, truthy, hty, hp, hpne, hst, hstne, hc, hi, ho, hsv, hsvne, hj,
      hjne, hregd, hm]
  · simp [processTaskIpc, truthy, hty, hp, hpne, hst, hstne, hc, hi, ho, hsv, hsvne, hj,
      hjne, hregd, hf]

/-- Witness for C10: an envelope with the unknown schedule type `weekly`
still creates a task with that type and a null `next_run`. -/
theorem c10_unknown_schedule_type_passthrough_witness :
    ∃ t : Task,
      processTaskIpc
        { type := "schedule_task", prompt := some "do it",
          schedule_type := some "weekly", schedule_value := some "x",
          targetJid := some "jid1" }
        "main" true sampleEnv sampleStore =
        ({ sampleStore with tasks := createTask sampleStore.tasks t }, [.createdTask t]) ∧
      t.schedule_type = "weekly" ∧ t.next_run = none ∧ t.status = "active" :=
  c10_unknown_schedule_type_passthrough
    { type := "schedule_task", prompt := some "do it",
      schedule_type := some "weekly", schedule_value := some "x",
      targetJid := some "jid1" }
    "main" true sampleEnv sampleStore sampleGroup
    "jid1" "x" "do it" "weekly" rfl rfl (by decide) rfl (by decide) (by decide)
    (by decide) (by decide) rfl (by decide) rfl (by decide) rfl (Or.inl rfl)

end Nanoclaw
